import Mathlib

/-!
Verification development for the multi-source summarization pipeline
(`assignment-4.py`): source loading, map stage, reduce stage and output
writing are embedded shallowly over `List Char` text, with the HTTP
fetch, the PDF/DOCX extractors, the filesystem and the chat-completion
endpoint supplied as oracles.
-/

/-- Text is modelled as a list of Unicode code points, matching Python
strings (`str` is a sequence of code points). -/
abbrev Text := List Char

/-- Model of the Python `str.strip()` method with no arguments: remove
leading and trailing whitespace. -/
def pyStrip (s : Text) : Text :=
  ((s.dropWhile Char.isWhitespace).reverse.dropWhile Char.isWhitespace).reverse

/-- The default question substituted by `summarize_text` when the query is
falsy (line 117: `query or 'Summarize the content'`). -/
def defaultQuestion : Text := "Summarize the content".data

/-- Python truthiness of `query or 'Summarize the content'`: `None` and the
empty string both fall back to the default question. -/
def queryOrDefault : Option Text → Text
  | none => defaultQuestion
  | some q => if q.isEmpty then defaultQuestion else q

/-- The f-string of line 117 building the full prompt submitted as the user
message. -/
def mkPrompt (text : Text) (query : Option Text) : Text :=
  "Context:\n".data ++ text ++ "\n\nQuestion: ".data ++ queryOrDefault query
    ++ "\nAnswer:".data

/-- A single-turn chat-completion request as issued on lines 118-124: model
identifier, the fixed system message content and the user message content. -/
structure ChatRequest where
  model : Text
  systemContent : Text
  userContent : Text
deriving DecidableEq

/-- The request built by `summarize_text` (lines 117-124): model
`gpt-4o-mini`, system content `You are a helpful assistant.` and the full
prompt as user content. -/
def mkRequest (text : Text) (query : Option Text) : ChatRequest :=
  { model := "gpt-4o-mini".data
    systemContent := "You are a helpful assistant.".data
    userContent := mkPrompt text query }

/-- Model of `summarize_text` (lines 114-128). The endpoint is an oracle
from the request to `Option Text`; `none` stands for any transport or API
exception, which the function catches, turning it into the empty string.
On success the response text is stripped (line 125). -/
def summarize_text (api : ChatRequest → Option Text) (text : Text)
    (query : Option Text) : Text :=
  match api (mkRequest text query) with
  | some r => pyStrip r
  | none => []

/-- The truncation budget of line 157. -/
def MAX_CHARS : Nat := 12000

/-- The truncation of lines 158-160: texts longer than `MAX_CHARS` code
points are cut to their first `MAX_CHARS` code points. -/
def truncateText (t : Text) : Text :=
  if MAX_CHARS < t.length then t.take MAX_CHARS else t

/-- The truncation warning of line 159, carrying the original length, logged
exactly when the loaded text exceeds the budget. -/
def truncGuard (t : Text) : Option Nat :=
  if MAX_CHARS < t.length then some t.length else none

/-- The fixed map-stage instruction of line 162. -/
def mapQuestion : Text := "Summarize this file in detail.".data

/-- The f-string of line 163 labelling one summary record. -/
def mapLabel (source summary : Text) : Text :=
  "--- Summary of ".data ++ source ++ " ---\n".data ++ summary ++ "\n".data

/-- Trace of one iteration of the map loop that was not skipped: the
source reference, its loaded text, the (possibly truncated) text submitted
to the summarization call, the truncation warning if any, the returned
summary and the labelled record appended to the accumulator. -/
structure MapRecord where
  source : Text
  loaded : Text
  submitted : Text
  truncWarning : Option Nat
  summary : Text
  record : Text
deriving DecidableEq

/-- Model of the map loop (lines 148-163): sources are processed in input
order; a source whose loaded text strips to empty is skipped (lines
152-154); otherwise the text is truncated if over budget, submitted with
the fixed instruction, and a labelled record is accumulated. -/
def mapStage (load : Text → Text) (api : ChatRequest → Option Text) :
    List Text → List MapRecord
  | [] => []
  | s :: rest =>
    let fileText := load s
    if (pyStrip fileText).isEmpty then mapStage load api rest
    else
      let submitted := truncateText fileText
      let summary := summarize_text api submitted (some mapQuestion)
      { source := s, loaded := fileText, submitted := submitted
        truncWarning := truncGuard fileText, summary := summary
        record := mapLabel s summary } :: mapStage load api rest

/-- Continuation-byte test for UTF-8 decoding. -/
def isCont (b : Nat) : Bool := 0x80 ≤ b && b ≤ 0xBF

/-- Lower bound of the valid second byte of a multi-byte UTF-8 sequence,
which depends on the lead byte (ruling out overlong encodings). -/
def cont2lo (b : Nat) : Nat :=
  if b = 0xE0 then 0xA0 else if b = 0xF0 then 0x90 else 0x80

/-- Upper bound of the valid second byte of a multi-byte UTF-8 sequence,
which depends on the lead byte (ruling out surrogates and values beyond
U+10FFFF). -/
def cont2hi (b : Nat) : Nat :=
  if b = 0xED then 0x9F else if b = 0xF4 then 0x8F else 0xBF

/-- Validity of the second byte of a multi-byte sequence with lead `b`. -/
def isCont2 (b b2 : Nat) : Bool := cont2lo b ≤ b2 && b2 ≤ cont2hi b

/-- Fuelled UTF-8 decoding loop. `repl` is the text emitted for each maximal
ill-formed subpart: `[]` models the Python error handler `ignore` (the bytes
are dropped), `[U+FFFD]` models `replace`. Each step consumes at least one
byte, so fuel equal to the byte count suffices. A maximal valid prefix of a
multi-byte sequence is consumed as one error, matching the CPython decoder;
a truncated sequence at end of input is one error. -/
def utf8DecodeAux (repl : List Char) : Nat → List Nat → List Char
  | 0, _ => []
  | _, [] => []
  | fuel+1, b :: rest =>
    if b < 0x80 then Char.ofNat b :: utf8DecodeAux repl fuel rest
    else if 0xC2 ≤ b && b ≤ 0xDF then
      match rest with
      | b2 :: rest2 =>
        if isCont b2 then
          Char.ofNat ((b - 0xC0) * 0x40 + (b2 - 0x80)) ::
            utf8DecodeAux repl fuel rest2
        else repl ++ utf8DecodeAux repl fuel rest
      | [] => repl
    else if 0xE0 ≤ b && b ≤ 0xEF then
      match rest with
      | b2 :: rest2 =>
        if isCont2 b b2 then
          match rest2 with
          | b3 :: rest3 =>
            if isCont b3 then
              Char.ofNat ((b - 0xE0) * 0x1000 + (b2 - 0x80) * 0x40 + (b3 - 0x80)) ::
                utf8DecodeAux repl fuel rest3
            else repl ++ utf8DecodeAux repl fuel rest2
          | [] => repl
        else repl ++ utf8DecodeAux repl fuel rest
      | [] => repl
    else if 0xF0 ≤ b && b ≤ 0xF4 then
      match rest with
      | b2 :: rest2 =>
        if isCont2 b b2 then
          match rest2 with
          | b3 :: rest3 =>
            if isCont b3 then
              match rest3 with
              | b4 :: rest4 =>
                if isCont b4 then
                  Char.ofNat ((b - 0xF0) * 0x40000 + (b2 - 0x80) * 0x1000
                      + (b3 - 0x80) * 0x40 + (b4 - 0x80)) ::
                    utf8DecodeAux repl fuel rest4
                else repl ++ utf8DecodeAux repl fuel rest3
              | [] => repl
            else repl ++ utf8DecodeAux repl fuel rest2
          | [] => repl
        else repl ++ utf8DecodeAux repl fuel rest
      | [] => repl
    else repl ++ utf8DecodeAux repl fuel rest

/-- UTF-8 decoding of a byte list under an error policy: `repl = []` is the
Python `errors="ignore"` handler, `repl = [U+FFFD]` is `errors="replace"`. -/
def utf8Decode (repl : List Char) (bs : List Nat) : List Char :=
  utf8DecodeAux repl bs.length bs

/-- The Unicode replacement character emitted by the `replace` handler. -/
def replacementChar : Char := Char.ofNat 0xFFFD

/-- Modelled from the spec: the Source Loader reading a plain-text file as
UTF-8 and replacing undecodable bytes, as section 4.1 step 4 of the spec
words it. Compared against the source-faithful `load_source` below. -/
def loadTextReplaceSpec (bytes : List Nat) : Text :=
  utf8Decode [replacementChar] bytes

/-- Oracles for the external collaborators of `load_source`: the HTTP fetch
(`none` models a request exception or a non-success status raised by
`raise_for_status`), the PDF and DOCX text extractors (`none` models any
extraction exception, including a missing file), and the filesystem giving
the raw bytes of a path (`none` models any `open` or read exception). -/
structure LoadEnv where
  http : Text → Option Text
  pdfText : Text → Option Text
  docxText : Text → Option Text
  fs : Text → Option (List Nat)

/-- Model of `load_source` (lines 30-60). Dispatch priority: URL scheme,
then `.pdf`, then `.docx`, then `.csv` or `.txt`, then anything else; the
last two branches both read the file as UTF-8 with `errors="ignore"`. Any
exception is caught and leaves `text` as the empty string. -/
def load_source (env : LoadEnv) (source_path : Text) : Text :=
  if ("http://".data).isPrefixOf source_path
      || ("https://".data).isPrefixOf source_path then
    (env.http source_path).getD []
  else if (".pdf".data).isSuffixOf source_path then
    (env.pdfText source_path).getD []
  else if (".docx".data).isSuffixOf source_path then
    (env.docxText source_path).getD []
  else if (".csv".data).isSuffixOf source_path
      || (".txt".data).isSuffixOf source_path then
    match env.fs source_path with
    | some bytes => utf8Decode [] bytes
    | none => []
  else
    match env.fs source_path with
    | some bytes => utf8Decode [] bytes
    | none => []

/-- Last index of a character in a text, as in the Python `str.rfind`
method (`none` when absent). -/
def lastIndexOf (c : Char) : Text → Option Nat
  | [] => none
  | x :: xs =>
    match lastIndexOf c xs with
    | some i => some (i + 1)
    | none => if x = c then some 0 else none

/-- Model of the extension part of `os.path.splitext` on POSIX: the suffix
of the path from its last dot, provided that dot lies inside the final path
component and is preceded there by at least one character that is not a
dot; otherwise the extension is empty. -/
def splitextExt (p : Text) : Text :=
  let s0 : Nat :=
    match lastIndexOf '/' p with
    | some k => k + 1
    | none => 0
  match lastIndexOf '.' p with
  | some d =>
    if s0 ≤ d && ((p.drop s0).take (d - s0)).any (fun ch => ch ≠ '.') then
      p.drop d
    else []
  | none => []

/-- The extension used for dispatch in `save_output` (line 65):
`os.path.splitext(output_path)[1].lower()`. -/
def outputExt (p : Text) : Text := (splitextExt p).map Char.toLower

/-- One row of the CSV writer (line 102): a line containing a comma is
split on commas with each column stripped; any other line is a single
column holding the line verbatim. -/
def csvRow (line : Text) : List Text :=
  if line.contains ',' then (line.splitOn ',').map pyStrip else [line]

/-- Abstract content of the file created by `save_output`: the raw string
for `.txt`, the kept paragraphs for `.pdf` (non-blank lines only) and
`.docx` (all lines), and the list of rows for `.csv`. -/
inductive SavedFile where
  | txt (content : Text)
  | pdf (paragraphs : List Text)
  | docx (paragraphs : List Text)
  | csv (rows : List (List Text))
deriving DecidableEq

/-- Model of `save_output` (lines 63-111): dispatch on the lowered
extension; `.txt` writes the text verbatim, `.pdf` keeps one paragraph per
non-blank line, `.docx` one paragraph per line, `.csv` one row per line via
`csvRow`. An unrecognised extension raises `ValueError`, which the
surrounding handler catches, so no file is created: the result is `none`. -/
def save_output (result_text output_path : Text) : Option SavedFile :=
  let ext := outputExt output_path
  if ext = ".txt".data then some (SavedFile.txt result_text)
  else if ext = ".pdf".data then
    some (SavedFile.pdf ((result_text.splitOn '\n').filter
      (fun line => !(pyStrip line).isEmpty)))
  else if ext = ".docx".data then
    some (SavedFile.docx (result_text.splitOn '\n'))
  else if ext = ".csv".data then
    some (SavedFile.csv ((result_text.splitOn '\n').map csvRow))
  else none

/-- Observable outcome of one run of `main`: the process exit status, how
many reduce-stage summarization calls were made and with which combined
context, the final answer printed on lines 173-175 (if reached), and the
output artifact (`none` when no output path was given; `some none` when
saving was attempted but failed or was unsupported, creating no file). -/
structure RunResult where
  exitCode : Nat
  reduceCalls : Nat
  reduceContext : Option Text
  printedFinal : Option Text
  saved : Option (Option SavedFile)
deriving DecidableEq

/-- Model of the body of `main` after argument parsing (lines 147-179): run
the map loop; with no usable summaries exit with status 1 (lines 165-167);
otherwise join the records with newlines, make exactly one reduce call with
the user query, print the final answer, and save it when an output path was
given. A normal run exits with status 0. -/
def runPipeline (load : Text → Text) (api : ChatRequest → Option Text)
    (query output : Option Text) (sources : List Text) : RunResult :=
  let summaries := (mapStage load api sources).map MapRecord.record
  if summaries.isEmpty then
    { exitCode := 1, reduceCalls := 0, reduceContext := none
      printedFinal := none, saved := none }
  else
    let combined := List.intercalate "\n".data summaries
    let finalAnswer := summarize_text api combined query
    { exitCode := 0, reduceCalls := 1, reduceContext := some combined
      printedFinal := some finalAnswer
      saved := output.map (fun p => save_output finalAnswer p) }

/-- Model of `main` including argument parsing: the positional `sources`
argument is declared with `nargs` plus (line 136), so argparse rejects an
empty source list with exit status 2 before the pipeline body runs. -/
def runMain (load : Text → Text) (api : ChatRequest → Option Text)
    (query output : Option Text) (sources : List Text) : RunResult :=
  if sources.isEmpty then
    { exitCode := 2, reduceCalls := 0, reduceContext := none
      printedFinal := none, saved := none }
  else runPipeline load api query output sources

/-- The record built by one non-skipped iteration of the map loop, as a
function of the source reference: closed form used to relate `mapStage` to
a filter of the source list. -/
def mkMapRecord (load : Text → Text) (api : ChatRequest → Option Text)
    (s : Text) : MapRecord :=
  let fileText := load s
  let submitted := truncateText fileText
  let summary := summarize_text api submitted (some mapQuestion)
  { source := s, loaded := fileText, submitted := submitted
    truncWarning := truncGuard fileText, summary := summary
    record := mapLabel s summary }

/-- Test fixture: a load environment whose filesystem returns the bytes
`68 69 FF` (ASCII `hi` followed by an invalid UTF-8 byte) for every path,
and whose other collaborators always fail. -/
def envText : LoadEnv :=
  { http := fun _ => none, pdfText := fun _ => none
    docxText := fun _ => none, fs := fun _ => some [104, 105, 255] }

/-- Test fixture: the map record produced for source `a` when loading
yields `x` and the endpoint fails (so the summary is empty). -/
def recA : MapRecord :=
  { source := "a".data, loaded := "x".data, submitted := "x".data
    truncWarning := none, summary := [], record := mapLabel "a".data [] }

theorem mapStage_eq (load : Text → Text) (api : ChatRequest → Option Text)
    (sources : List Text) :
    mapStage load api sources =
      (sources.filter (fun s => !(pyStrip (load s)).isEmpty)).map
        (mkMapRecord load api) := by
  induction sources with
  | nil => rfl
  | cons s rest ih =>
    simp only [mapStage]
    cases h : (pyStrip (load s)).isEmpty with
    | true => simp [List.filter_cons, h, ih]
    | false => simp [List.filter_cons, h, ih, mkMapRecord]

/-- C1: for every non-empty source list (a failed load is caught and yields
empty text, so a run where every source loads successfully is one where
emptiness only reflects content), the map stage produces exactly one
summary record per source whose loaded text is non-empty after stripping,
in source input order, and none for a source whose text strips to empty. -/
theorem claim1 (load : Text → Text) (api : ChatRequest → Option Text)
    (sources : List Text) (h : sources ≠ []) :
    (mapStage load api sources).map MapRecord.source =
      sources.filter (fun s => !(pyStrip (load s)).isEmpty) ∧
    (mapStage load api sources).length =
      (sources.filter (fun s => !(pyStrip (load s)).isEmpty)).length := by
  refine ⟨?_, ?_⟩
  · rw [mapStage_eq, List.map_map]
    have hc : MapRecord.source ∘ mkMapRecord load api = id := funext fun s => rfl
    rw [hc, List.map_id]
  · rw [mapStage_eq]
    simp

/-- Witness for C1 at a concrete run with one source that loads to `x`. -/
theorem claim1_witness :
    (mapStage (fun _ => "x".data) (fun _ => none) ["a".data]).map
        MapRecord.source = ["a".data] ∧
    (mapStage (fun _ => "x".data) (fun _ => none) ["a".data]).length = 1 := by
  have h := claim1 (fun _ => "x".data) (fun _ => none) ["a".data] (by decide)
  refine ⟨?_, ?_⟩
  · rw [h.1]; decide
  · rw [h.2]; decide

/-- C2: for every record of the map stage, if the loaded text exceeds
12000 characters then the submitted text is exactly its first 12000
characters (length exactly 12000) and a warning carrying the original
length is logged; otherwise the text is submitted unchanged, with no
warning. -/
theorem claim2 (load : Text → Text) (api : ChatRequest → Option Text)
    (sources : List Text) (r : MapRecord)
    (h : r ∈ mapStage load api sources) :
    (MAX_CHARS < r.loaded.length →
      r.submitted.length = MAX_CHARS ∧
      r.submitted = r.loaded.take MAX_CHARS ∧
      r.truncWarning = some r.loaded.length) ∧
    (r.loaded.length ≤ MAX_CHARS →
      r.submitted = r.loaded ∧ r.truncWarning = none) := by
  rw [mapStage_eq] at h
  obtain ⟨s, _, rfl⟩ := List.mem_map.mp h
  refine ⟨fun hgt => ?_, fun hle => ?_⟩
  · simp only [mkMapRecord] at hgt ⊢
    refine ⟨?_, ?_, ?_⟩
    · simp only [truncateText, if_pos hgt, List.length_take]
      omega
    · simp only [truncateText, if_pos hgt]
    · simp only [truncGuard, if_pos hgt]
  · simp only [mkMapRecord] at hle ⊢
    have hng : ¬ MAX_CHARS < (load s).length := by omega
    refine ⟨?_, ?_⟩
    · simp only [truncateText, if_neg hng]
    · simp only [truncGuard, if_neg hng]

/-- Witness for C2 at the record of a one-source run whose loaded text
`x` is within the budget. -/
theorem claim2_witness : recA.submitted = recA.loaded ∧ recA.truncWarning = none :=
  (claim2 (fun _ => "x".data) (fun _ => none) ["a".data] recA
    (by decide)).2 (by decide)

/-- C3: every run producing at least one summary record makes exactly one
reduce call, whose context is the newline-join of all summary records in
order. -/
theorem claim3 (load : Text → Text) (api : ChatRequest → Option Text)
    (query output : Option Text) (sources : List Text)
    (h : mapStage load api sources ≠ []) :
    (runMain load api query output sources).reduceCalls = 1 ∧
    (runMain load api query output sources).reduceContext =
      some (List.intercalate "\n".data
        ((mapStage load api sources).map MapRecord.record)) := by
  have hsrc : sources.isEmpty = false := by
    cases sources with
    | nil => exact absurd rfl h
    | cons a l => rfl
  have hsum : ((mapStage load api sources).map MapRecord.record).isEmpty = false := by
    cases hm : mapStage load api sources with
    | nil => exact absurd hm h
    | cons r l => simp [hm]
  simp [runMain, runPipeline, hsrc, hsum]

/-- Witness for C3 at a concrete one-source run. -/
theorem claim3_witness :
    (runMain (fun _ => "x".data) (fun _ => none) none none
      ["a".data]).reduceCalls = 1 ∧
    (runMain (fun _ => "x".data) (fun _ => none) none none
      ["a".data]).reduceContext =
      some (List.intercalate "\n".data
        ((mapStage (fun _ => "x".data) (fun _ => none) ["a".data]).map
          MapRecord.record)) :=
  claim3 (fun _ => "x".data) (fun _ => none) none none ["a".data] (by decide)

/-- C4 counterexample: with an empty source list the run does not exit with
status 1 as the claim states; argument parsing rejects the missing
required positional and exits with status 2. -/
theorem claim4_counterexample :
    (runMain (fun _ => []) (fun _ => none) none none []).exitCode ≠ 1 ∧
    (runMain (fun _ => []) (fun _ => none) none none []).exitCode = 2 := by
  decide

/-- C4 as amended: for a non-empty source list producing zero summary
records the run exits with status 1, makes no reduce call, prints no final
answer and creates no output artifact; an empty source list is rejected by
argument parsing with exit status 2 before the pipeline runs; and any run
with at least one summary record exits with status 0. -/
theorem claim4_amended (load : Text → Text) (api : ChatRequest → Option Text)
    (query output : Option Text) (sources : List Text) :
    (sources ≠ [] → mapStage load api sources = [] →
      runMain load api query output sources =
        { exitCode := 1, reduceCalls := 0, reduceContext := none
          printedFinal := none, saved := none }) ∧
    (sources = [] →
      runMain load api query output sources =
        { exitCode := 2, reduceCalls := 0, reduceContext := none
          printedFinal := none, saved := none }) ∧
    (mapStage load api sources ≠ [] →
      (runMain load api query output sources).exitCode = 0) := by
  refine ⟨fun h1 h2 => ?_, fun h1 => ?_, fun h => ?_⟩
  · have hsrc : sources.isEmpty = false := by
      cases sources with
      | nil => exact absurd rfl h1
      | cons a l => rfl
    simp [runMain, runPipeline, hsrc, h2]
  · subst h1
    simp [runMain]
  · have hsrc : sources.isEmpty = false := by
      cases sources with
      | nil => exact absurd rfl h
      | cons a l => rfl
    have hsum : ((mapStage load api sources).map MapRecord.record).isEmpty = false := by
      cases hm : mapStage load api sources with
      | nil => exact absurd hm h
      | cons r l => simp [hm]
    simp [runMain, runPipeline, hsrc, hsum]

/-- Witness for C4 as amended: one source whose text is empty gives exit
status 1 with no reduce call, no printed answer and no artifact. -/
theorem claim4_witness :
    runMain (fun _ => []) (fun _ => none) none none ["a".data] =
      { exitCode := 1, reduceCalls := 0, reduceContext := none
        printedFinal := none, saved := none } :=
  (claim4_amended (fun _ => []) (fun _ => none) none none ["a".data]).1
    (by decide) (by decide)

/-- C5 counterexample: at context `c` and the empty question, the user
prompt is not the template with the empty question substituted (the
default question is substituted instead), and the system message is not
the string `You are a helpful assistant` (the source has a trailing
period). -/
theorem claim5_counterexample :
    (mkRequest "c".data (some [])).userContent ≠
      "Context:\nc\n\nQuestion: \nAnswer:".data ∧
    (mkRequest "c".data (some [])).systemContent ≠
      "You are a helpful assistant".data := by
  decide

/-- C5 as amended: for every context string and non-empty question string,
the call builds the single prompt of the fixed template with that question,
sends it with the fixed system content `You are a helpful assistant.`
(trailing period), and returns the whitespace-stripped response text; on
any transport or API failure it returns the empty string instead of
propagating the exception. An empty or absent question is replaced by the
default question before substitution. -/
theorem claim5_amended (api : ChatRequest → Option Text) (text query : Text)
    (hq : query ≠ []) :
    (mkRequest text (some query)).userContent =
      "Context:\n".data ++ text ++ "\n\nQuestion: ".data ++ query
        ++ "\nAnswer:".data ∧
    (mkRequest text (some query)).systemContent =
      "You are a helpful assistant.".data ∧
    (∀ r, api (mkRequest text (some query)) = some r →
      summarize_text api text (some query) = pyStrip r) ∧
    (api (mkRequest text (some query)) = none →
      summarize_text api text (some query) = []) := by
  have hne : query.isEmpty = false := by
    cases query with
    | nil => exact absurd rfl hq
    | cons c l => rfl
  refine ⟨?_, rfl, fun r hr => ?_, fun hr => ?_⟩
  · simp [mkRequest, mkPrompt, queryOrDefault, hne]
  · simp [summarize_text, hr]
  · simp [summarize_text, hr]

/-- Witness for C5 as amended at context `c` and question `q`. -/
theorem claim5_witness :
    (mkRequest "c".data (some "q".data)).userContent =
      "Context:\nc\n\nQuestion: q\nAnswer:".data ∧
    (mkRequest "c".data (some "q".data)).systemContent =
      "You are a helpful assistant.".data := by
  have h := claim5_amended (fun _ => none) "c".data "q".data (by decide)
  refine ⟨?_, h.2.1⟩
  rw [h.1]
  decide

/-- C6 counterexample: on a file holding the bytes `68 69 FF`, the loader
returns the text with the undecodable byte dropped, which differs from the
spec-modelled reading that replaces undecodable bytes with U+FFFD. -/
theorem claim6_counterexample :
    load_source envText "notes.md".data ≠ loadTextReplaceSpec [104, 105, 255] := by
  decide

/-- C6 as amended: for every source reference that is not a URL and whose
extension indicates neither PDF nor a word-processor document, the loader
reads the file as UTF-8 and ignores (drops) undecodable bytes rather than
failing, returning the decoded content. -/
theorem claim6_amended (env : LoadEnv) (p : Text) (bytes : List Nat)
    (h1 : ("http://".data).isPrefixOf p = false)
    (h2 : ("https://".data).isPrefixOf p = false)
    (h3 : (".pdf".data).isSuffixOf p = false)
    (h4 : (".docx".data).isSuffixOf p = false)
    (h5 : env.fs p = some bytes) :
    load_source env p = utf8Decode [] bytes := by
  simp [load_source, h1, h2, h3, h4, h5]

/-- Witness for C6 as amended: a markdown path that is neither a URL nor a
PDF/DOCX reference, loaded from a file with one undecodable byte. -/
theorem claim6_witness :
    load_source envText "notes.md".data = utf8Decode [] [104, 105, 255] :=
  claim6_amended envText "notes.md".data [104, 105, 255]
    (by decide) (by decide) (by decide) (by decide) rfl

/-- C7 counterexample: when source `a` loads to `x` and the endpoint
returns `b`, the accumulated record is not the string
`Summary of a: b`; the source labels records as
`--- Summary of a ---` followed by a newline, the summary and a newline. -/
theorem claim7_counterexample :
    (mapStage (fun _ => "x".data) (fun _ => some "b".data) ["a".data]).map
      MapRecord.record ≠ ["Summary of a: b".data] := by
  decide

/-- C7 as amended: for every source with non-empty loaded text the record
appended to the accumulator combines the source reference and the
generated summary as `--- Summary of <source> ---` followed by a newline,
the summary text and a newline; a map call that returns an empty summary
still yields a record (with empty summary text) for its source. -/
theorem claim7_amended (load : Text → Text) (api : ChatRequest → Option Text)
    (sources : List Text) :
    (mapStage load api sources).map MapRecord.record =
      (sources.filter (fun s => !(pyStrip (load s)).isEmpty)).map
        (fun s => mapLabel s
          (summarize_text api (truncateText (load s)) (some mapQuestion))) := by
  rw [mapStage_eq, List.map_map]
  rfl

/-- C8: writing a final answer to a `.txt` path stores the raw string
verbatim, so writing `line1`, `line2`, `line3` joined by newlines and
reading the file back yields the identical string; writing that comma-free
text to a `.csv` path yields exactly three rows, each a single-column row
holding one of the three lines verbatim. -/
theorem claim8 :
    (∀ t : Text, save_output t "out.txt".data = some (SavedFile.txt t)) ∧
    save_output "line1\nline2\nline3".data "out.csv".data =
      some (SavedFile.csv [["line1".data], ["line2".data], ["line3".data]]) := by
  constructor
  · intro t
    have hx : outputExt "out.txt".data = ".txt".data := by decide
    simp [save_output, hx]
  · decide

/-- C9: for every output path whose extension is none of `.txt`, `.pdf`,
`.docx`, `.csv`, a run with at least one summary record reports an
unsupported-format error and creates no file, the error does not escape
the output writer, the final answer is still printed, and the run exits
with status 0. -/
theorem claim9 (load : Text → Text) (api : ChatRequest → Option Text)
    (query : Option Text) (sources : List Text) (p : Text)
    (h : mapStage load api sources ≠ [])
    (hext : outputExt p ∉ [".txt".data, ".pdf".data, ".docx".data, ".csv".data]) :
    (runMain load api query (some p) sources).saved = some none ∧
    (runMain load api query (some p) sources).printedFinal =
      some (summarize_text api
        (List.intercalate "\n".data
          ((mapStage load api sources).map MapRecord.record)) query) ∧
    (runMain load api query (some p) sources).exitCode = 0 := by
  have hsrc : sources.isEmpty = false := by
    cases sources with
    | nil => exact absurd rfl h
    | cons a l => rfl
  have hsum : ((mapStage load api sources).map MapRecord.record).isEmpty = false := by
    cases hm : mapStage load api sources with
    | nil => exact absurd hm h
    | cons r l => simp [hm]
  simp only [List.mem_cons, List.not_mem_nil, or_false, not_or] at hext
  obtain ⟨h1, h2, h3, h4⟩ := hext
  simp [runMain, runPipeline, hsrc, hsum, save_output, h1, h2, h3, h4]

/-- Witness for C9 at a one-source run saving to the unsupported path
`o.xyz`. -/
theorem claim9_witness :
    (runMain (fun _ => "x".data) (fun _ => none) none (some "o.xyz".data)
      ["a".data]).saved = some none ∧
    (runMain (fun _ => "x".data) (fun _ => none) none (some "o.xyz".data)
      ["a".data]).printedFinal =
      some (summarize_text (fun _ => none)
        (List.intercalate "\n".data
          ((mapStage (fun _ => "x".data) (fun _ => none) ["a".data]).map
            MapRecord.record)) none) ∧
    (runMain (fun _ => "x".data) (fun _ => none) none (some "o.xyz".data)
      ["a".data]).exitCode = 0 :=
  claim9 (fun _ => "x".data) (fun _ => none) none ["a".data] "o.xyz".data
    (by decide) (by decide)

/-- C10: a user query equal to the empty string is indistinguishable from
supplying no query at all: the whole run gives the same observable result,
because `summarize_text` substitutes the default question whenever its
query argument is absent or empty, testing truthiness rather than
presence. -/
theorem claim10 (load : Text → Text) (api : ChatRequest → Option Text)
    (output : Option Text) (sources : List Text) :
    runMain load api (some []) output sources =
      runMain load api none output sources ∧
    ∀ text : Text, summarize_text api text (some []) =
      summarize_text api text none :=
  ⟨rfl, fun _ => rfl⟩
